import Mathlib

/-!
Shallow embedding of the error-handling patterns of the repository
`ai-agent-error-patterns` (Trigger.dev tasks plus a standalone test harness),
together with theorems checking the natural-language specification against it.

The four embedded components are
* the partial-batch processor (task `agents.partial-success`, whose run body
  is identical to `testPartialSuccess` in `test-standalone.ts`),
* the circuit breaker (task `agents.circuit-breaker`, identical to
  `testCircuitBreaker` in `test-standalone.ts`),
* the human-escalation gate (`humanEscalation` in `src/trigger/humanEscalation.ts`),
* the graceful-degradation fallback chain (task `agents.graceful-degradation`
  and its standalone variant `testGracefulDegradation`).

Sources of nondeterminism in the code (`Math.random()` draws, `Date.now()`
readings) are embedded as explicit oracle inputs: each simulated operation
invocation is given its outcome by a behaviour function, and each breaker call
carries its clock reading.
-/

/-- Outcome of one invocation of a batch item's simulated operation.  In the
source the outcome is drawn from `Math.random()`: `r < 0.05` throws an error
with `code = "TOKEN_LIMIT"`, `0.05 <= r < 0.10` throws `code = "RATE_LIMIT"`,
otherwise the invocation returns `{ ok: true }`. -/
inductive ItemOutcome
  | success
  | tokenLimit
  | rateLimit
  deriving DecidableEq

/-- The `code` property carried by the error an unsuccessful invocation throws
(`"OK"` is a placeholder for the success case, never used). -/
def ItemOutcome.code : ItemOutcome → String
  | .success => "OK"
  | .tokenLimit => "TOKEN_LIMIT"
  | .rateLimit => "RATE_LIMIT"

/-- Model of `retry.onThrow(fn, { maxAttempts, factor })` from
`@trigger.dev/sdk/v3` as used by the batch processor: the wrapped operation is
re-invoked on ANY thrown error until it succeeds or `maxAttempts` total
invocations have been made, after which the last error is rethrown.  The
call sites pass only `{ maxAttempts, factor }` — no error classifier — so the
SDK has no way to distinguish error classes.  `op n` is the outcome of the
`n`-th invocation (1-based, matching the `attempts++` counter in the source);
the first argument is the number of attempts still permitted, the second the
number already made.  Returns (total invocations made, `none` on success or
`some code` of the last error). -/
def retryOnThrow (op : Nat → ItemOutcome) : Nat → Nat → Nat × Option String
  | 0, made => (made, some ("RETRY_EXHAUSTED"))
  | 1, made =>
      match op (made + 1) with
      | .success => (made + 1, none)
      | o => (made + 1, some o.code)
  | (k + 2), made =>
      match op (made + 1) with
      | .success => (made + 1, none)
      | _ => retryOnThrow op (k + 1) (made + 1)

/-- Per-item entry of the batch processor's `results` record:
`{ ok: res.ok, attempts, reason: (res as any).reason }`. -/
structure ItemResult where
  ok : Bool
  attempts : Nat
  reason : Option String
  deriving DecidableEq

/-- Processing of one batch item: `retry.onThrow` with `maxAttempts = 3`
wrapped in a `try/catch` that turns a (re)thrown error into
`{ ok: false, reason: e?.code || e?.message }`.  The `attempts` field is the
value of the item's `attempts` counter, i.e. the number of times the item's
operation was actually invoked during this run. -/
def runItem (op : Nat → ItemOutcome) : ItemResult :=
  let r := retryOnThrow op 3 0
  { ok := r.2.isNone, attempts := r.1, reason := r.2 }

/-- JavaScript object assignment `results[key] = v`: overwrite the entry if
the key is present (keeping its position), otherwise append. -/
def recordSet (m : List (String × ItemResult)) (k : String) (v : ItemResult) :
    List (String × ItemResult) :=
  if m.any (fun p => p.1 == k) then
    m.map (fun p => if p.1 == k then (k, v) else p)
  else m ++ [(k, v)]

/-- The batch processor's per-item loop: for each `id` in order, compute the
key `"item:" ++ id` and store `runItem` of that item's operation. -/
def processItems (beh : String → Nat → ItemOutcome) :
    List String → List (String × ItemResult) → List (String × ItemResult)
  | [], m => m
  | id :: rest, m =>
      processItems beh rest (recordSet m ("item:" ++ id) (runItem (beh id)))

/-- Batch-level result of the `agents.partial-success` task (`durationMs`
omitted): `ok` is `failedCount === 0`, counts are over `Object.values(results)`. -/
structure BatchResult where
  ok : Bool
  okCount : Nat
  failedCount : Nat
  results : List (String × ItemResult)
  deriving DecidableEq

/-- Embedding of the run body of the `agents.partial-success` task (the
`partial`-success batch processor; identical to `testPartialSuccess` in the
standalone harness).  `beh id n` is the outcome of the `n`-th invocation of
item `id`'s simulated operation. -/
def processBatch (beh : String → Nat → ItemOutcome) (items : List String) :
    BatchResult :=
  let results := processItems beh items []
  let vals := results.map (fun p => p.2)
  let okCount := (vals.filter (fun r => r.ok)).length
  let failed := vals.length - okCount
  { ok := failed == 0, okCount := okCount, failedCount := failed,
    results := results }

/-- Module-level breaker state of `agents.circuit-breaker`:
`let consecutive = 0; let openedUntil = 0;`.  Timestamps are naturals
(milliseconds); `openedUntil = 0` is the initial falsy value. -/
structure BState where
  consecutive : Nat
  openedUntil : Nat
  deriving DecidableEq

/-- One iteration of the breaker's call loop, as an explicit event: `now` is
the `Date.now()` reading at the top of the iteration (the source re-reads the
clock when setting `openedUntil` inside the same iteration; the embedding uses
the one reading for both), and `a1`/`a2` say whether the first/second inner
invocation of the flaky upstream operation succeeds (the inner
`retry.onThrow` runs it with `maxAttempts = 2`; the second invocation happens
only if the first fails). -/
structure CallEv where
  now : Nat
  a1 : Bool
  a2 : Bool
  deriving DecidableEq

/-- Per-call entry pushed onto `results`, extended with the number of times
the wrapped upstream operation was actually invoked during the call. -/
structure CallRes where
  ok : Bool
  status : Nat
  invocations : Nat
  deriving DecidableEq

/-- Constant `maxConsecutive = 5` from the source. -/
def maxConsecutive : Nat := 5

/-- One iteration of the `agents.circuit-breaker` loop (identical logic in
`testCircuitBreaker`): while `now < openedUntil` the call is rejected with
`{ ok: false, status: 503 }` and nothing runs; otherwise the retry-wrapped
flaky operation runs (success iff some inner attempt succeeds; a failure is
reported with the thrown `status` 502), `consecutive` is reset to 0 on success
or incremented on failure, and when it reaches `maxConsecutive` the breaker
sets `openedUntil = now + cooldown`.  Note the source never resets
`openedUntil` on success. -/
def cbStep (cooldown : Nat) (s : BState) (ev : CallEv) : BState × CallRes :=
  if ev.now < s.openedUntil then
    (s, { ok := false, status := 503, invocations := 0 })
  else
    let ok := ev.a1 || ev.a2
    let consecutive := if ok then 0 else s.consecutive + 1
    let openedUntil :=
      if maxConsecutive ≤ consecutive then ev.now + cooldown else s.openedUntil
    (⟨consecutive, openedUntil⟩,
     { ok := ok, status := if ok then 200 else 502,
       invocations := if ev.a1 then 1 else 2 })

/-- The breaker's call loop over a list of call events, returning the final
module-level state and the `results` list. -/
def cbRun (cooldown : Nat) : BState → List CallEv → BState × List CallRes
  | s, [] => (s, [])
  | s, ev :: rest =>
      let step := cbStep cooldown s ev
      let tail := cbRun cooldown step.1 rest
      (tail.1, step.2 :: tail.2)

/-- The task's reported `openUntil: openedUntil || null` field: `null` exactly
when the (falsy) value `0` is still stored. -/
def cbReportOpenUntil (s : BState) : Option Nat :=
  if s.openedUntil = 0 then none else some s.openedUntil

/-- Result record shared by the `agents.graceful-degradation` task and the
standalone `testGracefulDegradation` (`durationMs` omitted; the `degraded`
field is absent — i.e. falsy — on the primary path, embedded as `false`). -/
structure GDResult where
  ok : Bool
  model : String
  degraded : Bool
  output : String
  deriving DecidableEq

/-- Which LLM tier `callLLM` is asked for. -/
inductive LLMTier
  | primary
  | secondary
  deriving DecidableEq

/-- Function `callLLM` (defined identically in the task file and in
`test-standalone.ts`): in mock mode the primary tier always throws
`PRIMARY_DOWN` and the secondary returns `"fallback(" + prompt.slice(0,12) + ")"`;
outside mock mode it throws `"Real LLM not implemented"` for every tier. -/
def callLLM (tier : LLMTier) (prompt : String) (mock : Bool) :
    Except String String :=
  if mock then
    match tier with
    | .primary => .error ("PRIMARY_DOWN")
    | .secondary => .ok ("fallback(" ++ prompt.take 12 ++ ")")
  else .error ("Real LLM not implemented")

/-- The shared fallback chain of both graceful-degradation variants: try the
primary tier, on any failure try the secondary tier (marking `degraded`), and
if that also fails return the locally synthesized template answer
`{ ok: true, model: "template", degraded: true, output: "We're experiencing
issues. Draft: " + prompt.slice(0,20) + "…" }`.  Total by construction — every
failure is caught. -/
def fallbackChain (mock : Bool) (prompt : String) : GDResult :=
  match callLLM .primary prompt mock with
  | .ok a => { ok := true, model := "primary", degraded := false, output := a }
  | .error _ =>
      match callLLM .secondary prompt mock with
      | .ok b =>
          { ok := true, model := "secondary", degraded := true, output := b }
      | .error _ =>
          { ok := true, model := "template", degraded := true,
            output := "We\x27re experiencing issues. Draft: "
              ++ prompt.take 20 ++ "…" }

/-- Run body of the `agents.graceful-degradation` task: mock mode is enabled
iff the `LLM_MOCK` environment variable equals `"1"`
(`const mock = process.env.LLM_MOCK === "1"`). -/
def gracefulDegradation (llmMockEnv : Option String) (prompt : String) :
    GDResult :=
  fallbackChain (llmMockEnv == some "1") prompt

/-- Function `testGracefulDegradation` from `test-standalone.ts`: mock mode is enabled
unless `LLM_MOCK` equals `"0"` (`const mock = process.env.LLM_MOCK !== "0"`). -/
def testGracefulDegradation (llmMockEnv : Option String) (prompt : String) :
    GDResult :=
  fallbackChain (!(llmMockEnv == some "0")) prompt

/-- Result record of `humanEscalation` (union of the fields of the two return
objects; absent boolean fields are falsy, embedded as `false`, absent string
fields as `none`; `durationMs` omitted). -/
structure EscResult where
  ok : Bool
  escalated : Bool
  resumed : Bool
  message : Option String
  resumeToken : Option String
  deriving DecidableEq

/-- JavaScript falsiness of `payload.resumeToken` in the guard
`if (!payload.resumeToken)`: an absent field or the empty string. -/
def tokenFalsy : Option String → Bool
  | none => true
  | some s => s == ""

/-- Embedding of the `agents.human-escalation` run body
(`src/trigger/humanEscalation.ts`; `testHumanEscalation` in the standalone
harness differs only in throwing a plain `Error` instead of
`AbortTaskRunError`): with no (falsy) resume token it returns the escalation
record carrying the fixed token `"RESUME-123"`; with a wrong token it throws
`"Invalid resume token"` (embedded as `Except.error`); with the right token it
returns `{ ok: true, resumed: true }`.  The function keeps no state between
invocations. -/
def humanEscalation (data : String) (resumeToken : Option String) :
    Except String EscResult :=
  if tokenFalsy resumeToken then
    .ok { ok := false, escalated := true, resumed := false,
          message := some ("Escalated for review. Re-run with resumeToken to continue."),
          resumeToken := some ("RESUME-123") }
  else if resumeToken ≠ some "RESUME-123" then
    .error ("Invalid resume token")
  else
    .ok { ok := true, escalated := false, resumed := true,
          message := none, resumeToken := none }

/-! ### Supporting lemmas -/

/-- The idempotency-key prefix is injective: distinct ids give distinct keys. -/
theorem itemKey_inj {a b : String} (h : "item:" ++ a = "item:" ++ b) : a = b := by
  have hd := congrArg String.data h
  simp only [String.data_append] at hd
  exact String.ext (List.append_cancel_left hd)

/-- Every run of an item's retry loop invokes the operation at least once. -/
theorem runItem_attempts_pos (op : Nat → ItemOutcome) :
    1 ≤ (runItem op).attempts := by
  cases h1 : op 1 <;> cases h2 : op 2 <;> cases h3 : op 3 <;>
    simp [runItem, retryOnThrow, h1, h2, h3]

/-- Assigning a fresh key to the results record appends it. -/
theorem recordSet_fresh (m : List (String × ItemResult)) (k : String)
    (v : ItemResult) (h : ∀ p ∈ m, p.1 ≠ k) :
    recordSet m k v = m ++ [(k, v)] := by
  have hany : m.any (fun p => p.1 == k) = false := by
    simp only [List.any_eq_false]
    intro p hp
    simpa using h p hp
  simp [recordSet, hany]

/-- With fresh, pairwise-distinct keys, the batch loop just appends one entry
per item, in order. -/
theorem processItems_fresh (beh : String → Nat → ItemOutcome) :
    ∀ (items : List String) (m : List (String × ItemResult)),
      (∀ id ∈ items, ∀ p ∈ m, p.1 ≠ "item:" ++ id) →
      (items.map (fun id => "item:" ++ id)).Nodup →
      processItems beh items m =
        m ++ items.map (fun id => ("item:" ++ id, runItem (beh id)))
  | [], m, _, _ => by simp [processItems]
  | id :: rest, m, hfresh, hnd => by
      have hfresh0 : ∀ p ∈ m, p.1 ≠ "item:" ++ id :=
        fun p hp => hfresh id (by simp) p hp
      have hset := recordSet_fresh m ("item:" ++ id) (runItem (beh id)) hfresh0
      have hnd' := hnd
      simp only [List.map_cons, List.nodup_cons] at hnd'
      have hrest : ∀ i ∈ rest, ∀ p ∈ m ++ [("item:" ++ id, runItem (beh id))],
          p.1 ≠ "item:" ++ i := by
        intro i hi p hp
        rcases List.mem_append.1 hp with hp | hp
        · exact hfresh i (by simp [hi]) p hp
        · simp only [List.mem_singleton] at hp
          subst hp
          intro he
          have he' : "item:" ++ id = "item:" ++ i := he
          apply hnd'.1
          rw [he']
          exact List.mem_map_of_mem (fun j => "item:" ++ j) hi
      have ih := processItems_fresh beh rest
        (m ++ [("item:" ++ id, runItem (beh id))]) hrest hnd'.2
      simp only [processItems, hset, ih, List.map_cons, List.append_assoc,
        List.singleton_append]

/-- Looking up an item's key in the appended results finds its own entry. -/
theorem lookup_item (val : String → ItemResult) :
    ∀ (items : List String) (id : String), id ∈ items →
      (items.map (fun i => "item:" ++ i)).Nodup →
      List.lookup ("item:" ++ id)
          (items.map (fun i => ("item:" ++ i, val i))) = some (val id)
  | [], id, h, _ => by cases h
  | i0 :: rest, id, h, hnd => by
      simp only [List.map_cons, List.nodup_cons] at hnd
      rcases List.mem_cons.1 h with rfl | hmem
      · simp [List.lookup]
      · have hne : ("item:" ++ id == "item:" ++ i0) = false := by
          apply beq_false_of_ne
          intro he
          exact hnd.1 (itemKey_inj he ▸
            List.mem_map_of_mem (fun j => "item:" ++ j) hmem)
        simp only [List.map_cons, List.lookup, hne]
        exact lookup_item val rest id hmem hnd.2

/-- The batch-level `ok` flag is true iff every stored per-item result is a
success. -/
theorem processBatch_ok_iff (beh : String → Nat → ItemOutcome)
    (items : List String) :
    (processBatch beh items).ok = true ↔
      ∀ p ∈ (processBatch beh items).results, p.2.ok = true := by
  have hle := List.length_filter_le (fun r : ItemResult => r.ok)
    ((processItems beh items []).map (fun p => p.2))
  constructor
  · intro hok p hp
    simp only [processBatch, beq_iff_eq] at hok
    have heq : (((processItems beh items []).map (fun p => p.2)).filter
        (fun r => r.ok)).length =
        ((processItems beh items []).map (fun p => p.2)).length :=
      le_antisymm hle (Nat.le_of_sub_eq_zero hok)
    have hall := List.filter_eq_self.1
      ((List.filter_sublist _).eq_of_length heq)
    exact hall p.2 (List.mem_map_of_mem (fun q => q.2) hp)
  · intro hall
    simp only [processBatch, beq_iff_eq]
    have heq : ((processItems beh items []).map (fun p => p.2)).filter
        (fun r => r.ok) = (processItems beh items []).map (fun p => p.2) := by
      apply List.filter_eq_self.2
      intro r hr
      rcases List.mem_map.1 hr with ⟨p, hp, rfl⟩
      exact hall p hp
    rw [heq]
    exact Nat.sub_self _

/-- Running the breaker loop over a concatenation of event lists. -/
theorem cbRun_append (c : Nat) :
    ∀ (l1 l2 : List CallEv) (s : BState),
      cbRun c s (l1 ++ l2) =
        ((cbRun c (cbRun c s l1).1 l2).1,
         (cbRun c s l1).2 ++ (cbRun c (cbRun c s l1).1 l2).2)
  | [], l2, s => by simp [cbRun]
  | ev :: rest, l2, s => by
      simp only [List.cons_append, cbRun, List.append_eq]
      rw [cbRun_append c rest l2]

/-- While every event arrives before `openedUntil`, the breaker state never
changes: all calls are rejected fail-fast. -/
theorem cbRun_open_const (c : Nat) :
    ∀ (evs : List CallEv) (s : BState),
      (∀ ev ∈ evs, ev.now < s.openedUntil) → (cbRun c s evs).1 = s
  | [], s, _ => rfl
  | ev :: rest, s, h => by
      have hev : ev.now < s.openedUntil := h ev (by simp)
      have hstep : cbStep c s ev = (s, { ok := false, status := 503, invocations := 0 }) := by
        simp [cbStep, hev]
      simp only [cbRun, hstep]
      exact cbRun_open_const c rest s (fun e he => h e (by simp [he]))

/-- Five straight upstream failures from the fresh module state leave the
breaker tripped: failure count 5 and `openedUntil = t + cooldown`. -/
theorem cbRun_five_failures (c t : Nat) :
    (cbRun c ⟨0, 0⟩ (List.replicate 5 ⟨t, false, false⟩)).1 = ⟨5, t + c⟩ := by
  simp [cbRun, cbStep, maxConsecutive, List.replicate]

deriving instance DecidableEq for Except

/-! ### Claim theorems -/

/-- C1 (code bug): the spec (and the source's own comment and testing guide)
says a fatal TOKEN_LIMIT-classified error makes the batch processor's retry
wrapper invoke the operation exactly once and fail immediately, with only the
RATE_LIMIT class re-attempted.  Evaluating the code at the failing input — an
item whose operation throws TOKEN_LIMIT on every invocation — shows the
operation is invoked 3 times (= `maxAttempts`), because `retry.onThrow` is
given no error classifier and re-invokes on every thrown error; a persistent
RATE_LIMIT error behaves identically, so the two classes are not
distinguished at all. -/
theorem tokenLimit_retried_maxAttempts_times :
    runItem (fun _ => ItemOutcome.tokenLimit) =
      { ok := false, attempts := 3, reason := some ("TOKEN_LIMIT") } ∧
    runItem (fun _ => ItemOutcome.rateLimit) =
      { ok := false, attempts := 3, reason := some ("RATE_LIMIT") } :=
  ⟨rfl, rfl⟩

/-- C2 counterexample: resuming twice with the token `"RESUME-123"` succeeds
both times — the gate keeps no resolution state, so the second (and any later)
resume returns `{ ok: true, resumed: true }` instead of failing with
`TokenAlreadyUsed`. -/
theorem resume_twice_both_succeed :
    humanEscalation "payload" (some "RESUME-123") =
      Except.ok { ok := true, escalated := false, resumed := true,
                  message := none, resumeToken := none } ∧
    humanEscalation "payload" (some "RESUME-123") ≠
      Except.error ("TokenAlreadyUsed") := by
  exact ⟨rfl, by decide⟩

/-- C2 amended: the escalation gate is stateless — a resume with the valid
token `"RESUME-123"` succeeds on every invocation, not at most once, and no
invocation ever fails with `TokenAlreadyUsed` (the only resume failure the
code can produce is `"Invalid resume token"`, for a wrong non-empty token). -/
theorem resume_valid_token_always_succeeds (data : String) (tok : Option String) :
    humanEscalation data (some "RESUME-123") =
      Except.ok { ok := true, escalated := false, resumed := true,
                  message := none, resumeToken := none } ∧
    humanEscalation data tok ≠ Except.error ("TokenAlreadyUsed") := by
  refine ⟨rfl, ?_⟩
  unfold humanEscalation
  split
  · intro h
    exact nomatch h
  · split
    · intro h
      injection h with hh
      exact absurd hh (by decide)
    · intro h
      exact nomatch h

/-- C9: invoking the escalation gate with no resume credential returns
`{ ok: false, escalated: true }` together with a resume token, and a
subsequent invocation carrying exactly that token returns
`{ ok: true, resumed: true }` (the code has no expiry or prior-resolution
state, so the claim's side conditions are vacuously met). -/
theorem escalation_round_trip (d1 d2 : String) (e : EscResult) (tok : String)
    (h1 : humanEscalation d1 none = Except.ok e)
    (h2 : e.resumeToken = some tok) :
    e.ok = false ∧ e.escalated = true ∧
    humanEscalation d2 (some tok) =
      Except.ok { ok := true, escalated := false, resumed := true,
                  message := none, resumeToken := none } := by
  have h0 : humanEscalation d1 none =
      Except.ok { ok := false, escalated := true, resumed := false,
                  message := some ("Escalated for review. Re-run with resumeToken to continue."),
                  resumeToken := some ("RESUME-123") } := rfl
  rw [h0] at h1
  injection h1 with he
  subst he
  simp only [EscResult.resumeToken, Option.some.injEq] at h2
  subst h2
  exact ⟨rfl, rfl, rfl⟩

/-- C9 witness: the round trip at concrete inputs. -/
theorem escalation_round_trip_witness :
    (({ ok := false, escalated := true, resumed := false,
        message := some ("Escalated for review. Re-run with resumeToken to continue."),
        resumeToken := some ("RESUME-123") } : EscResult)).ok = false ∧
    (({ ok := false, escalated := true, resumed := false,
        message := some ("Escalated for review. Re-run with resumeToken to continue."),
        resumeToken := some ("RESUME-123") } : EscResult)).escalated = true ∧
    humanEscalation "b" (some "RESUME-123") =
      Except.ok { ok := true, escalated := false, resumed := true,
                  message := none, resumeToken := none } :=
  escalation_round_trip "a" "b"
    { ok := false, escalated := true, resumed := false,
      message := some ("Escalated for review. Re-run with resumeToken to continue."),
      resumeToken := some ("RESUME-123") } "RESUME-123" rfl rfl

/-- C7 counterexample: when every tier fails (mock mode off, here `LLM_MOCK`
unset), the synthesized terminal result is labelled `model: "template"`; the
code has no `tierUsed` field and the string `"fallback-default"` appears
nowhere, so the claimed `tierUsed: "fallback-default"` is false at this
input even though the `ok`/`degraded` guarantees hold. -/
theorem fallback_terminal_label_not_fallback_default :
    (gracefulDegradation none "hi").model = "template" ∧
    (gracefulDegradation none "hi").model ≠ "fallback-default" ∧
    (gracefulDegradation none "hi").ok = true ∧
    (gracefulDegradation none "hi").degraded = true := by
  decide

/-- C7 amended: the fallback chain is total at its boundary — for every
request, when every configured tier's provider fails (i.e. mock mode is off,
`LLM_MOCK ≠ "1"`, so both `callLLM` tiers throw), `gracefulDegradation` still
returns (never raises, being a total function by construction)
`ok: true, degraded: true` with the tier label `model: "template"` (not
`tierUsed: "fallback-default"`) and a non-empty output synthesized
deterministically from the request without any remote call. -/
theorem fallbackChain_total_degradation (env : Option String) (prompt : String)
    (hAllTiersFail : env ≠ some "1") :
    gracefulDegradation env prompt =
      { ok := true, model := "template", degraded := true,
        output := "We\x27re experiencing issues. Draft: "
          ++ prompt.take 20 ++ "…" } ∧
    (gracefulDegradation env prompt).output ≠ "" := by
  have hm : (env == some "1") = false := by
    simpa using hAllTiersFail
  have hres : gracefulDegradation env prompt =
      { ok := true, model := "template", degraded := true,
        output := "We\x27re experiencing issues. Draft: "
          ++ prompt.take 20 ++ "…" } := by
    simp [gracefulDegradation, fallbackChain, callLLM, hm]
  refine ⟨hres, ?_⟩
  rw [hres]
  intro hempty
  have hl := congrArg String.length hempty
  simp only [String.length_append, String.length_empty] at hl
  have h1 : ("We\x27re experiencing issues. Draft: " : String).length = 0 := by
    omega
  exact absurd h1 (by decide)

/-- C7 amended witness: the degraded template answer at a concrete request. -/
theorem fallbackChain_total_degradation_witness :
    gracefulDegradation none "hi" =
      { ok := true, model := "template", degraded := true,
        output := "We\x27re experiencing issues. Draft: "
          ++ ("hi" : String).take 20 ++ "…" } ∧
    (gracefulDegradation none "hi").output ≠ "" :=
  fallbackChain_total_degradation none "hi" (by decide)

/-- C10 counterexample: with `LLM_MOCK` unset the two graceful-degradation
variants disagree — the standalone version enables mock mode (primary down,
secondary answers) while the task version disables it (all tiers fail,
template answers), so their `model` and `output` fields differ. -/
theorem gd_variants_differ_when_unset :
    (testGracefulDegradation none "p").model = "secondary" ∧
    (gracefulDegradation none "p").model = "template" ∧
    testGracefulDegradation none "p" ≠ gracefulDegradation none "p" := by
  decide

/-- C10 amended: the standalone and task graceful-degradation functions agree
exactly on the explicitly-set mock values — for every prompt, when `LLM_MOCK`
is `"0"` or `"1"` they return identical `ok`/`model`/`degraded`/`output`
fields; their mock-mode defaults are inverted, so for any other value of the
variable (in particular unset) they answer from different tiers. -/
theorem gd_variants_agree_explicit_mock (env : Option String) (prompt : String)
    (h : env = some "0" ∨ env = some "1") :
    testGracefulDegradation env prompt = gracefulDegradation env prompt := by
  rcases h with rfl | rfl <;> rfl

/-- C10 amended witness: agreement at `LLM_MOCK = "0"`. -/
theorem gd_variants_agree_explicit_mock_witness :
    testGracefulDegradation (some "0") "p" = gracefulDegradation (some "0") "p" :=
  gd_variants_agree_explicit_mock (some "0") "p" (Or.inl rfl)

/-- C4 counterexample: a 6-call run (cooldown 10) with five upstream
failures at times 0..4 — tripping the breaker with `openedUntil = 14` — and
then a successful attempted call at time 20.  The final call's wrapped
operation succeeded, and `consecutiveFailures` is 0, but `openedUntil` is
still 14, not cleared: the reported `openUntil` field is `some 14`, not
`null`. -/
theorem success_leaves_openedUntil_set :
    (cbRun 10 ⟨0, 0⟩ [⟨0, false, false⟩, ⟨1, false, false⟩, ⟨2, false, false⟩,
        ⟨3, false, false⟩, ⟨4, false, false⟩, ⟨20, true, true⟩]).1 =
      ⟨0, 14⟩ ∧
    (cbRun 10 ⟨0, 0⟩ [⟨0, false, false⟩, ⟨1, false, false⟩, ⟨2, false, false⟩,
        ⟨3, false, false⟩, ⟨4, false, false⟩, ⟨20, true, true⟩]).2.getLast? =
      some { ok := true, status := 200, invocations := 1 } ∧
    cbReportOpenUntil ⟨0, 14⟩ ≠ none := by
  decide

/-- C4 amended: after an attempted call whose wrapped operation succeeds the
breaker has `consecutiveFailures = 0` but `openedUntil` UNCHANGED (the source
never clears it, so it stays set — and is reported non-null — after a
trip); and `openedUntil` is reassigned only at a step where the updated
failure count has reached the threshold `maxConsecutive`. -/
theorem cbStep_success_resets_only_consecutive (cooldown : Nat) (s : BState)
    (ev : CallEv) :
    (s.openedUntil ≤ ev.now → (ev.a1 || ev.a2) = true →
      (cbStep cooldown s ev).1 = ⟨0, s.openedUntil⟩) ∧
    ((cbStep cooldown s ev).1.openedUntil ≠ s.openedUntil →
      maxConsecutive ≤ (cbStep cooldown s ev).1.consecutive) := by
  constructor
  · intro ht hok
    have hnot : ¬ ev.now < s.openedUntil := Nat.not_lt.mpr ht
    simp [cbStep, hnot, hok, maxConsecutive]
  · intro hchange
    by_cases ho : ev.now < s.openedUntil
    · exact absurd (by simp [cbStep, ho]) hchange
    · by_cases hok : (ev.a1 || ev.a2) = true
      · exact absurd (by simp [cbStep, ho, hok, maxConsecutive]) hchange
      · simp only [Bool.not_eq_true] at hok
        by_cases hc : maxConsecutive ≤ s.consecutive + 1
        · simp [cbStep, ho, hok, hc]
        · exact absurd (by simp [cbStep, ho, hok, hc]) hchange

/-- C4 amended witness: a success at a closed breaker resets the counter and
keeps `openedUntil`; a tripping failure has reached the threshold. -/
theorem cbStep_success_resets_only_consecutive_witness :
    (cbStep 7 ⟨3, 0⟩ ⟨5, true, false⟩).1 = ⟨0, 0⟩ ∧
    maxConsecutive ≤ (cbStep 7 ⟨4, 0⟩ ⟨5, false, false⟩).1.consecutive :=
  ⟨(cbStep_success_resets_only_consecutive 7 ⟨3, 0⟩ ⟨5, true, false⟩).1
      (by decide) (by decide),
   (cbStep_success_resets_only_consecutive 7 ⟨4, 0⟩ ⟨5, false, false⟩).2
      (by decide)⟩

/-- C5: the breaker trips and recovers — (i) any call arriving while
`now < openedUntil` is rejected fail-fast as a 503 result with the wrapped
operation not invoked at all and the state unchanged; (ii) once
`now >= openedUntil` the next call is attempted (at least one invocation of
the wrapped operation); (iii) any sequence of `N ≥ maxConsecutive` straight
upstream failures at time `t` from the fresh state leaves the breaker open
with `openedUntil = t + cooldown`. -/
theorem circuitBreaker_trips_and_recovers (cooldown t N : Nat) (s : BState)
    (ev : CallEv) :
    (ev.now < s.openedUntil →
      cbStep cooldown s ev =
        (s, { ok := false, status := 503, invocations := 0 })) ∧
    (s.openedUntil ≤ ev.now → 1 ≤ (cbStep cooldown s ev).2.invocations) ∧
    (maxConsecutive ≤ N → 0 < cooldown →
      (cbRun cooldown ⟨0, 0⟩
          (List.replicate N ⟨t, false, false⟩)).1.openedUntil =
        t + cooldown) := by
  refine ⟨?_, ?_, ?_⟩
  · intro h
    simp [cbStep, h]
  · intro h
    have hnot : ¬ ev.now < s.openedUntil := Nat.not_lt.mpr h
    simp only [cbStep, if_neg hnot]
    cases ev.a1 <;> simp
  · intro hN hc
    have hsplit : N = 5 + (N - 5) := (Nat.add_sub_cancel' hN).symm
    rw [hsplit, List.replicate_add, cbRun_append,
      cbRun_five_failures cooldown t]
    have hconst := cbRun_open_const cooldown
      (List.replicate (N - 5) ⟨t, false, false⟩) ⟨5, t + cooldown⟩
      (by
        intro e he
        have := (List.eq_of_mem_replicate he)
        subst this
        exact Nat.lt_add_of_pos_right hc)
    rw [hconst]

/-- C5 witness: fail-fast while open, attempt after expiry, and the trip of a
6-failure sequence, at concrete inputs. -/
theorem circuitBreaker_trips_and_recovers_witness :
    cbStep 3 ⟨0, 5⟩ ⟨4, true, true⟩ =
      (⟨0, 5⟩, { ok := false, status := 503, invocations := 0 }) ∧
    1 ≤ (cbStep 3 ⟨0, 5⟩ ⟨7, true, true⟩).2.invocations ∧
    (cbRun 3 ⟨0, 0⟩ (List.replicate 6 ⟨2, false, false⟩)).1.openedUntil =
      2 + 3 :=
  ⟨(circuitBreaker_trips_and_recovers 3 2 6 ⟨0, 5⟩ ⟨4, true, true⟩).1
      (by decide),
   (circuitBreaker_trips_and_recovers 3 2 6 ⟨0, 5⟩ ⟨7, true, true⟩).2.1
      (by decide),
   (circuitBreaker_trips_and_recovers 3 2 6 ⟨0, 5⟩ ⟨7, true, true⟩).2.2
      (by decide) (by decide)⟩

/-- C8: half-open behaviour — the first call after `now >= openedUntil` while
the breaker had been open (so its failure count is still at or above the
threshold) is attempted; on success the breaker is functionally closed again
(`consecutiveFailures = 0`, and no later-or-equal time is rejected against
the unchanged stale `openedUntil`); on failure it re-opens immediately with a
fresh `openedUntil = now + cooldown`. -/
theorem cbStep_half_open (cooldown : Nat) (s : BState) (ev : CallEv)
    (hTrip : maxConsecutive ≤ s.consecutive)
    (hTime : s.openedUntil ≤ ev.now) :
    1 ≤ (cbStep cooldown s ev).2.invocations ∧
    ((ev.a1 || ev.a2) = true →
      (cbStep cooldown s ev).1.consecutive = 0 ∧
      ∀ t2, ev.now ≤ t2 → ¬ t2 < (cbStep cooldown s ev).1.openedUntil) ∧
    ((ev.a1 || ev.a2) = false →
      (cbStep cooldown s ev).1.openedUntil = ev.now + cooldown ∧
      maxConsecutive ≤ (cbStep cooldown s ev).1.consecutive) := by
  have hnot : ¬ ev.now < s.openedUntil := Nat.not_lt.mpr hTime
  refine ⟨?_, ?_, ?_⟩
  · simp only [cbStep, if_neg hnot]
    cases ev.a1 <;> simp
  · intro hok
    constructor
    · simp [cbStep, hnot, hok, maxConsecutive]
    · intro t2 ht2
      have : (cbStep cooldown s ev).1.openedUntil = s.openedUntil := by
        simp [cbStep, hnot, hok, maxConsecutive]
      rw [this]
      exact Nat.not_lt.mpr (le_trans hTime ht2)
  · intro hfail
    have hge : maxConsecutive ≤ s.consecutive + 1 :=
      le_trans hTrip (Nat.le_succ _)
    constructor
    · simp [cbStep, hnot, hfail, hge]
    · simp only [cbStep, if_neg hnot, hfail]
      simp [hge]

/-- C8 witness: half-open success closes (counter reset, a later time 15 not
rejected); half-open failure re-opens at `now + cooldown`. -/
theorem cbStep_half_open_witness :
    (cbStep 4 ⟨5, 10⟩ ⟨12, true, false⟩).1.consecutive = 0 ∧
    ¬ 15 < (cbStep 4 ⟨5, 10⟩ ⟨12, true, false⟩).1.openedUntil ∧
    (cbStep 4 ⟨5, 10⟩ ⟨12, false, false⟩).1.openedUntil = 12 + 4 :=
  ⟨((cbStep_half_open 4 ⟨5, 10⟩ ⟨12, true, false⟩ (by decide)
      (by decide)).2.1 (by decide)).1,
   ((cbStep_half_open 4 ⟨5, 10⟩ ⟨12, true, false⟩ (by decide)
      (by decide)).2.1 (by decide)).2 15 (by decide),
   ((cbStep_half_open 4 ⟨5, 10⟩ ⟨12, false, false⟩ (by decide)
      (by decide)).2.2 (by decide)).1⟩

/-- C3 counterexample: the processor keeps no store of finalized results, so a
re-run with the same batch and item set re-invokes every item's operation.
Concretely, after a run finalizing `item:a` as a success in 1 attempt, the
re-run (the identical stateless call) again records `attempts = 1` for
`item:a` — its operation was invoked once more, not zero times as the claim
requires. -/
theorem replay_reinvokes_finalized_item :
    (processBatch (fun _ _ => ItemOutcome.success) ["a"]).results =
      [("item:a", { ok := true, attempts := 1, reason := none })] ∧
    ((processBatch (fun _ _ => ItemOutcome.success) ["a"]).results.lookup
        ("item:a")).map ItemResult.attempts = some 1 ∧
    ((processBatch (fun _ _ => ItemOutcome.success) ["a"]).results.lookup
        ("item:a")).map ItemResult.attempts ≠ some 0 := by
  refine ⟨rfl, rfl, by decide⟩

/-- C3 amended: `processBatch` maintains no store of finalized results — the
idempotency key is computed but never consulted — so re-running it with the
same batch identifier and item set recomputes every item: each item's stored
result per run is exactly a fresh `runItem` of its operation, which is
invoked at least once, and runs coincide only because the computation is a
pure function of the same inputs. -/
theorem processBatch_replay_recomputes (beh : String → Nat → ItemOutcome)
    (items : List String) (id : String) (hmem : id ∈ items)
    (hnd : (items.map (fun i => "item:" ++ i)).Nodup) :
    (processBatch beh items).results.lookup ("item:" ++ id) =
      some (runItem (beh id)) ∧
    1 ≤ (runItem (beh id)).attempts := by
  constructor
  · have h := processItems_fresh beh items [] (by simp) hnd
    have hrw : (processBatch beh items).results = processItems beh items [] :=
      rfl
    rw [hrw, h, List.nil_append]
    exact lookup_item (fun i => runItem (beh i)) items id hmem hnd
  · exact runItem_attempts_pos _

/-- C3 amended witness: the recomputation at a concrete single-item batch. -/
theorem processBatch_replay_recomputes_witness :
    (processBatch (fun _ _ => ItemOutcome.success) ["a"]).results.lookup
        ("item:" ++ "a") =
      some (runItem ((fun (_ : String) (_ : Nat) => ItemOutcome.success) "a")) ∧
    1 ≤ (runItem ((fun (_ : String) (_ : Nat) => ItemOutcome.success) "a")).attempts :=
  processBatch_replay_recomputes (fun _ _ => ItemOutcome.success) ["a"] "a"
    (by decide) (by decide)

/-- C6: batch isolation — for a batch split into items `F` that fail fatally
and items `S` that succeed (distinct idempotency keys), (i) every item of
`F ++ S` has a per-item result in the output map, namely exactly the result
of its own operation (success flag, attempts consumed, failure reason);
(ii) every item of `S` gets the same result as in a batch without `F`
present; (iii) the batch-level `ok` is true iff every stored per-item result
is a success; and (iv) with `F` nonempty the batch-level `ok` is false. -/
theorem processBatch_isolation (beh : String → Nat → ItemOutcome)
    (F S : List String)
    (hnd : ((F ++ S).map (fun i => "item:" ++ i)).Nodup)
    (hF : ∀ id ∈ F, (runItem (beh id)).ok = false)
    (hS : ∀ id ∈ S, (runItem (beh id)).ok = true) :
    (∀ id ∈ F ++ S,
      (processBatch beh (F ++ S)).results.lookup ("item:" ++ id) =
        some (runItem (beh id))) ∧
    (∀ id ∈ S,
      (processBatch beh (F ++ S)).results.lookup ("item:" ++ id) =
        (processBatch beh S).results.lookup ("item:" ++ id)) ∧
    ((processBatch beh (F ++ S)).ok = true ↔
      ∀ p ∈ (processBatch beh (F ++ S)).results, p.2.ok = true) ∧
    (F ≠ [] → (processBatch beh (F ++ S)).ok = false) := by
  have hndS : (S.map (fun i => "item:" ++ i)).Nodup := by
    rw [List.map_append] at hnd
    exact hnd.of_append_right
  have hres : (processBatch beh (F ++ S)).results =
      (F ++ S).map (fun i => ("item:" ++ i, runItem (beh i))) := by
    have h := processItems_fresh beh (F ++ S) [] (by simp) hnd
    have hrw : (processBatch beh (F ++ S)).results =
        processItems beh (F ++ S) [] := rfl
    rw [hrw, h, List.nil_append]
  have hlookupAll : ∀ id ∈ F ++ S,
      (processBatch beh (F ++ S)).results.lookup ("item:" ++ id) =
        some (runItem (beh id)) := by
    intro id hid
    rw [hres]
    exact lookup_item (fun i => runItem (beh i)) (F ++ S) id hid hnd
  refine ⟨hlookupAll, ?_, processBatch_ok_iff beh (F ++ S), ?_⟩
  · intro id hid
    have h1 := hlookupAll id (List.mem_append_right F hid)
    have h2 : (processBatch beh S).results.lookup ("item:" ++ id) =
        some (runItem (beh id)) := by
      have h := processItems_fresh beh S [] (by simp) hndS
      have hrw : (processBatch beh S).results = processItems beh S [] := rfl
      rw [hrw, h, List.nil_append]
      exact lookup_item (fun i => runItem (beh i)) S id hid hndS
    rw [h1, h2]
  · intro hFne
    rcases List.exists_mem_of_ne_nil F hFne with ⟨id0, hid0⟩
    by_contra hok
    have hok' : (processBatch beh (F ++ S)).ok = true := by
      cases h : (processBatch beh (F ++ S)).ok
      · exact absurd h hok
      · rfl
    have hall := (processBatch_ok_iff beh (F ++ S)).1 hok'
    have hmem : ("item:" ++ id0, runItem (beh id0)) ∈
        (processBatch beh (F ++ S)).results := by
      rw [hres]
      exact List.mem_map_of_mem (fun i => ("item:" ++ i, runItem (beh i)))
        (List.mem_append_left S hid0)
    have := hall _ hmem
    rw [hF id0 hid0] at this
    exact Bool.false_ne_true this

/-- C6 witness: a concrete batch with one fatally-failing item and one
succeeding item. -/
theorem processBatch_isolation_witness :
    (processBatch
        (fun i _ => if i = "f" then ItemOutcome.tokenLimit
          else ItemOutcome.success)
        (["f"] ++ ["s"])).results.lookup ("item:" ++ "s") =
      some (runItem ((fun (i : String) (_ : Nat) =>
        if i = "f" then ItemOutcome.tokenLimit else ItemOutcome.success) "s")) ∧
    (processBatch
        (fun i _ => if i = "f" then ItemOutcome.tokenLimit
          else ItemOutcome.success)
        (["f"] ++ ["s"])).ok = false :=
  ⟨(processBatch_isolation
      (fun i _ => if i = "f" then ItemOutcome.tokenLimit
        else ItemOutcome.success)
      ["f"] ["s"] (by decide) (by decide) (by decide)).1 "s" (by decide),
   (processBatch_isolation
      (fun i _ => if i = "f" then ItemOutcome.tokenLimit
        else ItemOutcome.success)
      ["f"] ["s"] (by decide) (by decide) (by decide)).2.2.2 (by decide)⟩

/-- C2 amended witness: the valid-token resume and the absence of a
`TokenAlreadyUsed` failure at concrete inputs. -/
theorem resume_valid_token_always_succeeds_witness :
    humanEscalation "d" (some "RESUME-123") =
      Except.ok { ok := true, escalated := false, resumed := true,
                  message := none, resumeToken := none } ∧
    humanEscalation "d" (some "x") ≠ Except.error ("TokenAlreadyUsed") :=
  resume_valid_token_always_succeeds "d" (some "x")
